import Mathlib

/-! # KDWindow native bridge (`src/newt/native/KDWindow.c`)

A shallow embedding of the exported JNI functions of `KDWindow.c`.

* Machine integers are `Int` (signed C types) and `Nat` (pointer bit patterns),
  with every cast written out as an explicit wrap to the target width. The width of
  `intptr_t` and the width of a pointer are separate: the typedefs at the head of the
  file make `intptr_t` an `int` on some targets with 64-bit pointers (see `Build`).
* Calls that leave the C code (the OpenKODE toolkit, the JNI array accessors, and
  the `CallVoidMethod` upcalls) are recorded, in program order, in a list of `Call`s.
  What those calls answer is an input of the embedded function.
* The five `static jmethodID` variables are the record `Statics`, which every exported
  function receives and hands back.
* Constants of headers that are not part of the translated file are fields of `Platform`.
* `fprintf` diagnostics and the compiled-out `DBG_PRINT` lines have no effect on any
  result and are left out; the `kdGetError()` call made while formatting a diagnostic
  is kept, since it is a call into the toolkit.
-/

namespace KDWindow

/-! ## Machine integers and casts -/

/-- Wrap an integer into the two's-complement range of a signed type of `w` bits. -/
def wrapSigned (w : Nat) (x : Int) : Int :=
  (x + 2 ^ (w - 1)) % 2 ^ w - 2 ^ (w - 1)

/-- Values of a `jint` (32-bit signed). -/
def jintRange (x : Int) : Prop := -2 ^ 31 ≤ x ∧ x < 2 ^ 31

/-- Values of a `jlong` (64-bit signed). -/
def jlongRange (x : Int) : Prop := -2 ^ 63 ≤ x ∧ x < 2 ^ 63

instance (x : Int) : Decidable (jintRange x) := by unfold jintRange; infer_instance

instance (x : Int) : Decidable (jlongRange x) := by unfold jlongRange; infer_instance

/-- The cast `(jint) x`. -/
def toJint (x : Int) : Int := wrapSigned 32 x

/-- The cast `(jlong) x`. -/
def toJlong (x : Int) : Int := wrapSigned 64 x

/-- The builds that the `intptr_t` block at the head of the file (lines 42-58) gives rise
to. Its first test, `(_MSC_VER < 1400) || defined(UNDER_CE)`, holds for every compiler
that does not define `_MSC_VER`, so every such compiler gets `typedef int intptr_t`
unless `_WIN64` is defined, also on a target with 64-bit pointers.

* `intptr32_ptr32`: `int` as `intptr_t`, 32-bit pointers;
* `intptr32_ptr64`: `int` as `intptr_t`, 64-bit pointers (a 64-bit target without
  `_MSC_VER` and `_WIN64`);
* `intptr64_ptr64`: a 64-bit `intptr_t` (`long long`, `__int64` or the one of
  `inttypes.h`), 64-bit pointers. -/
inductive Build where
  | intptr32_ptr32
  | intptr32_ptr64
  | intptr64_ptr64
  deriving DecidableEq, Repr

/-- The number of bits of `intptr_t`. -/
def Build.intptrBits : Build → Nat
  | .intptr32_ptr32 => 32
  | .intptr32_ptr64 => 32
  | .intptr64_ptr64 => 64

/-- The number of bits of a pointer. -/
def Build.ptrBits : Build → Nat
  | .intptr32_ptr32 => 32
  | .intptr32_ptr64 => 64
  | .intptr64_ptr64 => 64

/-- The cast `(intptr_t) x` of an integer: the value wrapped to the width of `intptr_t`. -/
def toIntptr (b : Build) (x : Int) : Int := wrapSigned b.intptrBits x

/-- The cast `(T *) i` of an `intptr_t`: the value sign-extended to the width of a
pointer, read as a bit pattern. -/
def intptrToPtr (b : Build) (i : Int) : Nat := (i % 2 ^ b.ptrBits).toNat

/-- The cast `(intptr_t) p` of a pointer: its bit pattern cut to the width of `intptr_t`
and read as a signed value. -/
def ptrToIntptr (b : Build) (p : Nat) : Int := wrapSigned b.intptrBits (p : Int)

/-- The cast `(T *)(intptr_t) x` applied to a `jlong` handle. -/
def jlongToPtr (b : Build) (x : Int) : Nat := intptrToPtr b (toIntptr b x)

/-- The cast `(jlong)(intptr_t) p` applied to a native handle. -/
def ptrToJlong (b : Build) (p : Nat) : Int := toJlong (ptrToIntptr b p)

/-- The cast `(void *)(intptr_t) owner` of `CreateWindow`. -/
def ownerToUserptr (b : Build) (owner : Int) : Nat :=
  intptrToPtr b (toIntptr b owner)

/-- The cast `(jint)(intptr_t) evt->userptr` of `DispatchMessages`. -/
def userptrToOwner (b : Build) (userptr : Nat) : Int :=
  toJint (ptrToIntptr b userptr)

/-! ## Constants of the included headers -/

/-- The build and the constants that `KDWindow.c` takes from
`KD/kd.h`, `KD/NV_extwindowprops.h`, `jni.h`, `EventListener.h` and `MouseEvent.h`. -/
structure Platform where
  build : Build
  KD_EVENT_INPUT_POINTER : Int
  KD_EVENT_WINDOW_FOCUS : Int
  KD_EVENT_WINDOW_CLOSE : Int
  KD_EVENT_WINDOWPROPERTY_CHANGE : Int
  KD_EVENT_WINDOW_REDRAW : Int
  KD_WINDOWPROPERTY_SIZE : Int
  KD_WINDOWPROPERTY_FOCUS : Int
  KD_WINDOWPROPERTY_VISIBILITY : Int
  KD_WINDOWPROPERTY_FULLSCREEN_NV : Int
  KD_INPUT_POINTER_SELECT : Int
  KD_TRUE : Int
  KD_FALSE : Int
  JNI_TRUE : Int
  JNI_FALSE : Int
  EVENT_WINDOW : Int
  EVENT_MOUSE : Int
  EVENT_MOUSE_PRESSED : Int
  EVENT_MOUSE_RELEASED : Int
  EVENT_MOUSE_MOVED : Int

/-- The `case` labels of each `switch` of `DispatchMessages` are pairwise different, as C
requires of the labels of one `switch`. -/
def Platform.caseLabelsDistinct (P : Platform) : Prop :=
  [P.KD_EVENT_INPUT_POINTER, P.KD_EVENT_WINDOW_FOCUS, P.KD_EVENT_WINDOW_CLOSE,
    P.KD_EVENT_WINDOWPROPERTY_CHANGE, P.KD_EVENT_WINDOW_REDRAW].Nodup ∧
  [P.KD_WINDOWPROPERTY_SIZE, P.KD_WINDOWPROPERTY_FOCUS, P.KD_WINDOWPROPERTY_VISIBILITY].Nodup

instance (P : Platform) : Decidable P.caseLabelsDistinct := by
  unfold Platform.caseLabelsDistinct; infer_instance

/-- An example assignment of the header constants, used for concrete evaluations. -/
def examplePlatform (build : Build) : Platform where
  build := build
  KD_EVENT_INPUT_POINTER := 57
  KD_EVENT_WINDOW_FOCUS := 60
  KD_EVENT_WINDOW_CLOSE := 44
  KD_EVENT_WINDOWPROPERTY_CHANGE := 47
  KD_EVENT_WINDOW_REDRAW := 59
  KD_WINDOWPROPERTY_SIZE := 66
  KD_WINDOWPROPERTY_FOCUS := 68
  KD_WINDOWPROPERTY_VISIBILITY := 67
  KD_WINDOWPROPERTY_FULLSCREEN_NV := 9999
  KD_INPUT_POINTER_SELECT := 16387
  KD_TRUE := 1
  KD_FALSE := 0
  JNI_TRUE := 1
  JNI_FALSE := 0
  EVENT_WINDOW := 1
  EVENT_MOUSE := 2
  EVENT_MOUSE_PRESSED := 203
  EVENT_MOUSE_RELEASED := 204
  EVENT_MOUSE_MOVED := 205

/-! ## Static variables and recorded calls -/

/-- The five `static jmethodID` variables of the file; `0` is `NULL`. -/
structure Statics where
  sizeChangedID : Nat
  windowDestroyNotifyID : Nat
  windowDestroyedID : Nat
  sendMouseEventID : Nat
  sendKeyEventID : Nat
  deriving DecidableEq, Repr

/-- The statics as the C initialisers leave them. -/
def Statics.initial : Statics := ⟨0, 0, 0, 0, 0⟩

/-- A call that leaves the translated file, with the arguments the C code passes.
Pointers to locals (`&v`, `v`) are recorded by the values they point to. The `env`
and `obj` arguments of the JNI calls are the same in every call and are not recorded. -/
inductive Call where
  | GetArrayLength
  | GetIntArrayElements
  | ReleaseIntArrayElements
  | kdCreateWindow (dpy : Nat) (attrs : List Int) (userptr : Nat)
  | kdGetError
  | kdRealizeWindow (w : Nat)
  | kdDestroyWindow (w : Nat)
  | kdSetWindowPropertybv (w : Nat) (pname : Int) (v : Int)
  | kdSetWindowPropertyiv (w : Nat) (pname : Int) (v : List Int)
  | kdWaitEvent (timeout : Int)
  | kdGetWindowPropertybv (w : Nat) (pname : Int)
  | kdGetWindowPropertyiv (w : Nat) (pname : Int)
  | CallVoidMethod (methodID : Nat) (args : List Int)
  deriving DecidableEq, Repr

/-- Upcalls into the managed object. -/
def Call.isCallback : Call → Bool
  | .CallVoidMethod _ _ => true
  | _ => false

/-- Calls into the native toolkit (the `kd*` functions). -/
def Call.isNative : Call → Bool
  | .kdCreateWindow _ _ _ => true
  | .kdGetError => true
  | .kdRealizeWindow _ => true
  | .kdDestroyWindow _ => true
  | .kdSetWindowPropertybv _ _ _ => true
  | .kdSetWindowPropertyiv _ _ _ => true
  | .kdWaitEvent _ => true
  | .kdGetWindowPropertybv _ _ => true
  | .kdGetWindowPropertyiv _ _ => true
  | _ => false

/-- Calls of `kdCreateWindow`. -/
def Call.isCreateWindow : Call → Bool
  | .kdCreateWindow _ _ _ => true
  | _ => false

/-- Calls of `kdWaitEvent`. -/
def Call.isWaitEvent : Call → Bool
  | .kdWaitEvent _ => true
  | _ => false

/-- Reads of a window property (`kdGetWindowPropertybv`, `kdGetWindowPropertyiv`). -/
def Call.isPropertyRead : Call → Bool
  | .kdGetWindowPropertybv _ _ => true
  | .kdGetWindowPropertyiv _ _ => true
  | _ => false

/-- What an exported function leaves behind: its return value, the calls it made, in
order, and the static variables after the call. -/
structure Ret (α : Type) where
  value : α
  calls : List Call
  statics : Statics

/-- The upcalls among the calls made. -/
def Ret.callbacks {α : Type} (r : Ret α) : List Call := r.calls.filter Call.isCallback

/-! ## Data exchanged with the JNI and the toolkit -/

/-- A `jintArray` argument as the JNI accessors describe it: the answer of
`GetArrayLength` and the answer of `GetIntArrayElements` (`none` is `NULL`). -/
structure JIntArray where
  length : Int
  elements : Option (List Int)

/-- The outcome of `kdRealizeWindow(w, &nativeWindow)`: the returned code and the handle
stored through the out parameter, `none` when the call stored nothing. -/
structure RealizeOutcome where
  res : Int
  written : Option Nat

/-- The member `data.windowproperty` of a `KDEvent`. -/
structure KDEventWindowProperty where
  pname : Int
  deriving DecidableEq, Repr

/-- The member `data.inputpointer` of a `KDEvent`. -/
structure KDEventInputPointer where
  index : Int
  select : Int
  x : Int
  y : Int
  deriving DecidableEq, Repr

/-- The fields of a `KDEvent` that `DispatchMessages` reads. The two views of the `data`
union are kept as separate fields; the code reads `windowproperty` only for a
property-change event and `inputpointer` only for a pointer event. -/
structure KDEvent where
  type : Int
  userptr : Nat
  windowproperty : KDEventWindowProperty
  inputpointer : KDEventInputPointer
  deriving DecidableEq, Repr

/-- The outcome of one `kdGetWindowPropertyiv(w, KD_WINDOWPROPERTY_SIZE, v)`: the returned
code and the two integers left in `v`. -/
structure SizeRead where
  res : Int
  v0 : Int
  v1 : Int
  deriving DecidableEq, Repr

/-- The toolkit as `DispatchMessages` sees it: the events pending in the native queue,
oldest first, and the outcomes of the size reads still to come (`sizeReads 0` is the
outcome of the next one). -/
structure KDState where
  queue : List KDEvent
  sizeReads : Nat → SizeRead

/-! ## The exported functions -/

/-- The exported function `Java_com_sun_javafx_newt_kd_KDWindow_initIDs`; `GetMethodID name sig` is what the JNI
answers for the method of that name and signature. -/
def Java_com_sun_javafx_newt_kd_KDWindow_initIDs (P : Platform) (_st : Statics)
    (GetMethodID : String → String → Nat) : Ret Int :=
  let st1 : Statics :=
    { sizeChangedID := GetMethodID "sizeChanged" "(II)V"
      windowDestroyNotifyID := GetMethodID "windowDestroyNotify" "()V"
      windowDestroyedID := GetMethodID "windowDestroyed" "()V"
      sendMouseEventID := GetMethodID "sendMouseEvent" "(IIIIII)V"
      sendKeyEventID := GetMethodID "sendKeyEvent" "(IIIC)V" }
  if st1.sizeChangedID = 0 ∨ st1.windowDestroyNotifyID = 0 ∨ st1.windowDestroyedID = 0 ∨
      st1.sendMouseEventID = 0 ∨ st1.sendKeyEventID = 0 then
    { value := P.JNI_FALSE, calls := [], statics := st1 }
  else
    { value := P.JNI_TRUE, calls := [], statics := st1 }

/-- The exported function `Java_com_sun_javafx_newt_kd_KDWindow_CreateWindow`; `created` is the pointer that
`kdCreateWindow` returns (`0` is `NULL`). -/
def Java_com_sun_javafx_newt_kd_KDWindow_CreateWindow (P : Platform) (st : Statics)
    (owner display : Int) (jAttrs : JIntArray)
    (created : Nat) : Ret Int :=
  let dpy := jlongToPtr P.build display
  if dpy = 0 then
    { value := 0, calls := [], statics := st }
  else
    let attrsLen := jAttrs.length
    if 0 = attrsLen then
      { value := 0, calls := [Call.GetArrayLength], statics := st }
    else
      match jAttrs.elements with
      | none =>
        { value := 0, calls := [Call.GetArrayLength, Call.GetIntArrayElements], statics := st }
      | some attrs =>
        let window := created
        { value := ptrToJlong P.build window
          calls :=
            [Call.GetArrayLength, Call.GetIntArrayElements,
              Call.kdCreateWindow dpy attrs (ownerToUserptr P.build owner),
              Call.ReleaseIntArrayElements] ++
            (if window = 0 then [Call.kdGetError] else [])
          statics := st }

/-- The exported function `Java_com_sun_javafx_newt_kd_KDWindow_RealizeWindow`. -/
def Java_com_sun_javafx_newt_kd_KDWindow_RealizeWindow (P : Platform) (st : Statics)
    (window : Int) (native : RealizeOutcome) :
    Ret Int :=
  let w := jlongToPtr P.build window
  let nativeWindow0 : Nat := 0
  let nativeWindow1 := native.written.getD nativeWindow0
  let res := native.res
  if res ≠ 0 then
    { value := ptrToJlong P.build 0
      calls := [Call.kdRealizeWindow w, Call.kdGetError]
      statics := st }
  else
    { value := ptrToJlong P.build nativeWindow1
      calls := [Call.kdRealizeWindow w]
      statics := st }

/-- The exported function `Java_com_sun_javafx_newt_kd_KDWindow_CloseWindow`; `res` is the code that
`kdDestroyWindow` returns. -/
def Java_com_sun_javafx_newt_kd_KDWindow_CloseWindow (P : Platform) (st : Statics)
    (window : Int) (res : Int) : Ret Int :=
  let w := jlongToPtr P.build window
  { value := res, calls := [Call.kdDestroyWindow w], statics := st }

/-- The exported function `Java_com_sun_javafx_newt_kd_KDWindow_setVisible0`. -/
def Java_com_sun_javafx_newt_kd_KDWindow_setVisible0 (P : Platform) (st : Statics)
    (window : Int) (visible : Int) : Ret Unit :=
  let w := jlongToPtr P.build window
  let v := if visible = P.JNI_TRUE then P.KD_TRUE else P.KD_FALSE
  { value := (), calls := [Call.kdSetWindowPropertybv w P.KD_WINDOWPROPERTY_VISIBILITY v],
    statics := st }

/-- The exported function `Java_com_sun_javafx_newt_kd_KDWindow_setFullScreen0`; `_res` is the code that
`kdSetWindowPropertybv` returns. -/
def Java_com_sun_javafx_newt_kd_KDWindow_setFullScreen0 (P : Platform) (st : Statics)
    (window : Int) (fullscreen : Int)
    (_res : Int) : Ret Unit :=
  let w := jlongToPtr P.build window
  let v := fullscreen
  { value := (), calls := [Call.kdSetWindowPropertybv w P.KD_WINDOWPROPERTY_FULLSCREEN_NV v],
    statics := st }

/-- The exported function `Java_com_sun_javafx_newt_kd_KDWindow_setSize0`; `_res` is the code that
`kdSetWindowPropertyiv` returns. -/
def Java_com_sun_javafx_newt_kd_KDWindow_setSize0 (P : Platform) (st : Statics)
    (window : Int) (width height : Int)
    (_res : Int) : Ret Unit :=
  let w := jlongToPtr P.build window
  let v := [width, height]
  { value := ()
    calls :=
      [Call.kdSetWindowPropertyiv w P.KD_WINDOWPROPERTY_SIZE v,
        Call.CallVoidMethod st.sizeChangedID [width, height]]
    statics := st }

/-- The first `switch` of the loop body of `DispatchMessages`: `false` when it leaves
through `continue`, `true` when it leaves through `break` or matches no label. -/
def maskAllows (P : Platform) (eventMask : Int) (type : Int) : Bool :=
  if type = P.KD_EVENT_INPUT_POINTER then
    if Int.land eventMask P.EVENT_MOUSE = 0 then false else true
  else if type = P.KD_EVENT_WINDOW_FOCUS ∨ type = P.KD_EVENT_WINDOW_CLOSE ∨
      type = P.KD_EVENT_WINDOWPROPERTY_CHANGE ∨ type = P.KD_EVENT_WINDOW_REDRAW then
    if Int.land eventMask P.EVENT_WINDOW = 0 then false else true
  else true

/-- The second `switch` of the loop body of `DispatchMessages`: the calls it makes for
an event, and the size reads left afterwards. -/
def translateEvent (P : Platform) (st : Statics) (w : Nat) (evt : KDEvent)
    (reads : Nat → SizeRead) : List Call × (Nat → SizeRead) :=
  if evt.type = P.KD_EVENT_WINDOW_FOCUS then
    ([Call.kdGetWindowPropertybv w P.KD_WINDOWPROPERTY_FOCUS], reads)
  else if evt.type = P.KD_EVENT_WINDOW_CLOSE then
    ([Call.CallVoidMethod st.windowDestroyNotifyID []], reads)
  else if evt.type = P.KD_EVENT_WINDOWPROPERTY_CHANGE then
    let prop := evt.windowproperty
    if prop.pname = P.KD_WINDOWPROPERTY_SIZE then
      let r := reads 0
      if r.res = 0 then
        ([Call.kdGetWindowPropertyiv w P.KD_WINDOWPROPERTY_SIZE,
            Call.CallVoidMethod st.sizeChangedID [r.v0, r.v1]],
          fun i => reads (i + 1))
      else
        ([Call.kdGetWindowPropertyiv w P.KD_WINDOWPROPERTY_SIZE], fun i => reads (i + 1))
    else if prop.pname = P.KD_WINDOWPROPERTY_FOCUS then
      ([], reads)
    else if prop.pname = P.KD_WINDOWPROPERTY_VISIBILITY then
      ([Call.kdGetWindowPropertybv w P.KD_WINDOWPROPERTY_VISIBILITY], reads)
    else
      ([], reads)
  else if evt.type = P.KD_EVENT_INPUT_POINTER then
    let ptr := evt.inputpointer
    if P.KD_INPUT_POINTER_SELECT = ptr.index then
      ([Call.CallVoidMethod st.sendMouseEventID
          [if ptr.select = 0 then P.EVENT_MOUSE_RELEASED else P.EVENT_MOUSE_PRESSED,
            0, ptr.x, ptr.y, 1, 0]], reads)
    else
      ([Call.CallVoidMethod st.sendMouseEventID [P.EVENT_MOUSE_MOVED, 0, ptr.x, ptr.y, 0, 0]],
        reads)
  else
    ([], reads)

/-- One pass through the loop body of `DispatchMessages` for the event `evt` that
`kdWaitEvent` has just returned. -/
def dispatchEvent (P : Platform) (st : Statics) (owner : Int) (w : Nat) (eventMask : Int)
    (evt : KDEvent) (reads : Nat → SizeRead) : List Call × (Nat → SizeRead) :=
  let src_owner := userptrToOwner P.build evt.userptr
  if src_owner ≠ owner then
    ([], reads)
  else if maskAllows P eventMask evt.type = false then
    ([], reads)
  else
    translateEvent P st w evt reads

/-- The `while` loop of `DispatchMessages`. Every pass starts with `kdWaitEvent(0)`, which
takes the oldest pending event off the queue, or returns `NULL` on an empty queue and
ends the loop. -/
def dispatchLoop (P : Platform) (st : Statics) (owner : Int) (w : Nat) (eventMask : Int) :
    List KDEvent → (Nat → SizeRead) → List Call × KDState
  | [], reads => ([Call.kdWaitEvent 0], { queue := [], sizeReads := reads })
  | evt :: rest, reads =>
    let step := dispatchEvent P st owner w eventMask evt reads
    let tail := dispatchLoop P st owner w eventMask rest step.2
    (Call.kdWaitEvent 0 :: (step.1 ++ tail.1), tail.2)

/-- The exported function `Java_com_sun_javafx_newt_kd_KDWindow_DispatchMessages`; the value is the toolkit
state the call leaves. -/
def Java_com_sun_javafx_newt_kd_KDWindow_DispatchMessages (P : Platform) (st : Statics)
    (owner : Int) (window : Int)
    (eventMask : Int) (kd : KDState) : Ret KDState :=
  let w := jlongToPtr P.build window
  let run := dispatchLoop P st owner w eventMask kd.queue kd.sizeReads
  { value := run.2, calls := run.1, statics := st }

end KDWindow


namespace KDWindow

/-! ## Casts between handles, owners and pointers -/

theorem userptrToOwner_ownerToUserptr (b : Build) (o : Int) (h : jintRange o) :
    userptrToOwner b (ownerToUserptr b o) = o := by
  unfold jintRange at h
  cases b <;>
    simp only [userptrToOwner, ownerToUserptr, toJint, ptrToIntptr, intptrToPtr, toIntptr,
      wrapSigned, Build.intptrBits, Build.ptrBits] <;>
    norm_num <;> omega

theorem ptrToJlong_zero (b : Build) : ptrToJlong b 0 = 0 := by
  cases b <;>
    simp [ptrToJlong, toJlong, ptrToIntptr, wrapSigned, Build.intptrBits]

theorem jlongToPtr_zero (b : Build) : jlongToPtr b 0 = 0 := by
  cases b <;>
    simp [jlongToPtr, intptrToPtr, toIntptr, wrapSigned, Build.intptrBits, Build.ptrBits]

theorem jlongToPtr_ptrToJlong (b : Build) (hw : b.intptrBits = b.ptrBits) (p : Nat)
    (h : p < 2 ^ b.ptrBits) : jlongToPtr b (ptrToJlong b p) = p := by
  cases b
  · simp only [jlongToPtr, ptrToJlong, toJlong, ptrToIntptr, intptrToPtr, toIntptr,
      wrapSigned, Build.intptrBits, Build.ptrBits] at h ⊢
    norm_num at h ⊢
    omega
  · simp [Build.intptrBits, Build.ptrBits] at hw
  · simp only [jlongToPtr, ptrToJlong, toJlong, ptrToIntptr, intptrToPtr, toIntptr,
      wrapSigned, Build.intptrBits, Build.ptrBits] at h ⊢
    norm_num at h ⊢
    omega

theorem jlongToPtr_eq_zero_iff (b : Build) (hw : b.intptrBits = b.ptrBits) (display : Int) :
    jlongToPtr b display = 0 ↔ display % 2 ^ b.ptrBits = 0 := by
  cases b
  · simp only [jlongToPtr, intptrToPtr, toIntptr, wrapSigned, Build.intptrBits,
      Build.ptrBits]
    norm_num
    omega
  · simp [Build.intptrBits, Build.ptrBits] at hw
  · simp only [jlongToPtr, intptrToPtr, toIntptr, wrapSigned, Build.intptrBits,
      Build.ptrBits]
    norm_num
    omega

theorem jlong_emod_eq_zero_iff (display : Int) (h : jlongRange display) :
    display % 2 ^ 64 = 0 ↔ display = 0 := by
  unfold jlongRange at h
  norm_num at h ⊢
  omega

/-! ## The loop of `DispatchMessages` -/

theorem dispatchEvent_eq_nil_of_owner (P : Platform) (st : Statics) (owner : Int) (w : Nat)
    (eventMask : Int) (evt : KDEvent) (reads : Nat → SizeRead)
    (h : userptrToOwner P.build evt.userptr ≠ owner) :
    dispatchEvent P st owner w eventMask evt reads = ([], reads) := by
  simp [dispatchEvent, h]

theorem dispatchEvent_eq_nil_of_mask (P : Platform) (st : Statics) (owner : Int) (w : Nat)
    (eventMask : Int) (evt : KDEvent) (reads : Nat → SizeRead)
    (h : maskAllows P eventMask evt.type = false) :
    dispatchEvent P st owner w eventMask evt reads = ([], reads) := by
  simp [dispatchEvent, h]

theorem dispatchEvent_eq_translate (P : Platform) (st : Statics) (owner : Int) (w : Nat)
    (eventMask : Int) (evt : KDEvent) (reads : Nat → SizeRead)
    (ho : userptrToOwner P.build evt.userptr = owner)
    (hm : maskAllows P eventMask evt.type = true) :
    dispatchEvent P st owner w eventMask evt reads = translateEvent P st w evt reads := by
  simp [dispatchEvent, ho, hm]

theorem translateEvent_no_wait (P : Platform) (st : Statics) (w : Nat) (evt : KDEvent)
    (reads : Nat → SizeRead) :
    (translateEvent P st w evt reads).1.filter Call.isWaitEvent = [] := by
  unfold translateEvent
  dsimp only
  split_ifs <;> simp [Call.isWaitEvent]

theorem translateEvent_callbacks_le (P : Platform) (st : Statics) (w : Nat) (evt : KDEvent)
    (reads : Nat → SizeRead) :
    ((translateEvent P st w evt reads).1.filter Call.isCallback).length ≤ 1 := by
  unfold translateEvent
  dsimp only
  split_ifs <;> simp [Call.isCallback]

theorem dispatchEvent_cases (P : Platform) (st : Statics) (owner : Int) (w : Nat)
    (eventMask : Int) (evt : KDEvent) (reads : Nat → SizeRead) :
    dispatchEvent P st owner w eventMask evt reads = ([], reads) ∨
      dispatchEvent P st owner w eventMask evt reads = translateEvent P st w evt reads := by
  unfold dispatchEvent
  dsimp only
  split_ifs <;> simp

theorem dispatchEvent_no_wait (P : Platform) (st : Statics) (owner : Int) (w : Nat)
    (eventMask : Int) (evt : KDEvent) (reads : Nat → SizeRead) :
    (dispatchEvent P st owner w eventMask evt reads).1.filter Call.isWaitEvent = [] := by
  rcases dispatchEvent_cases P st owner w eventMask evt reads with h | h
  · rw [h]; rfl
  · rw [h]; exact translateEvent_no_wait P st w evt reads

theorem dispatchEvent_callbacks_le (P : Platform) (st : Statics) (owner : Int) (w : Nat)
    (eventMask : Int) (evt : KDEvent) (reads : Nat → SizeRead) :
    ((dispatchEvent P st owner w eventMask evt reads).1.filter Call.isCallback).length ≤ 1 := by
  rcases dispatchEvent_cases P st owner w eventMask evt reads with h | h
  · rw [h]; simp
  · rw [h]; exact translateEvent_callbacks_le P st w evt reads

theorem dispatchLoop_cons (P : Platform) (st : Statics) (owner : Int) (w : Nat)
    (eventMask : Int) (evt : KDEvent) (rest : List KDEvent) (reads : Nat → SizeRead) :
    dispatchLoop P st owner w eventMask (evt :: rest) reads =
      (Call.kdWaitEvent 0 :: ((dispatchEvent P st owner w eventMask evt reads).1 ++
          (dispatchLoop P st owner w eventMask rest
            (dispatchEvent P st owner w eventMask evt reads).2).1),
        (dispatchLoop P st owner w eventMask rest
          (dispatchEvent P st owner w eventMask evt reads).2).2) := rfl

theorem dispatchLoop_wait_count (P : Platform) (st : Statics) (owner : Int) (w : Nat)
    (eventMask : Int) (q : List KDEvent) (reads : Nat → SizeRead) :
    ((dispatchLoop P st owner w eventMask q reads).1.filter Call.isWaitEvent).length =
      q.length + 1 := by
  induction q generalizing reads with
  | nil => rfl
  | cons evt rest ih =>
    rw [dispatchLoop_cons]
    simp [Call.isWaitEvent, dispatchEvent_no_wait, ih]

theorem dispatchLoop_queue (P : Platform) (st : Statics) (owner : Int) (w : Nat)
    (eventMask : Int) (q : List KDEvent) (reads : Nat → SizeRead) :
    (dispatchLoop P st owner w eventMask q reads).2.queue = [] := by
  induction q generalizing reads with
  | nil => rfl
  | cons evt rest ih => rw [dispatchLoop_cons]; exact ih _

theorem dispatchLoop_getLast (P : Platform) (st : Statics) (owner : Int) (w : Nat)
    (eventMask : Int) (q : List KDEvent) (reads : Nat → SizeRead) :
    (dispatchLoop P st owner w eventMask q reads).1.getLast? = some (Call.kdWaitEvent 0) := by
  induction q generalizing reads with
  | nil => rfl
  | cons evt rest ih =>
    rw [dispatchLoop_cons]
    have h := ih (dispatchEvent P st owner w eventMask evt reads).2
    have hne : (dispatchLoop P st owner w eventMask rest
        (dispatchEvent P st owner w eventMask evt reads).2).1 ≠ [] := by
      intro hnil; rw [hnil] at h; simp at h
    rw [← List.cons_append, List.getLast?_append_of_ne_nil _ hne]
    exact h

theorem dispatchLoop_callbacks_append (P : Platform) (st : Statics) (owner : Int) (w : Nat)
    (eventMask : Int) (q1 q2 : List KDEvent) (reads : Nat → SizeRead) :
    (dispatchLoop P st owner w eventMask (q1 ++ q2) reads).1.filter Call.isCallback =
      (dispatchLoop P st owner w eventMask q1 reads).1.filter Call.isCallback ++
        (dispatchLoop P st owner w eventMask q2
          (dispatchLoop P st owner w eventMask q1 reads).2.sizeReads).1.filter
            Call.isCallback := by
  induction q1 generalizing reads with
  | nil => simp [dispatchLoop, Call.isCallback]
  | cons evt rest ih =>
    rw [List.cons_append, dispatchLoop_cons, dispatchLoop_cons]
    simp [Call.isCallback, ih]

theorem dispatchLoop_callbacks_length (P : Platform) (st : Statics) (owner : Int) (w : Nat)
    (eventMask : Int) (q : List KDEvent) (reads : Nat → SizeRead) :
    ((dispatchLoop P st owner w eventMask q reads).1.filter Call.isCallback).length ≤
      q.length := by
  induction q generalizing reads with
  | nil => simp [dispatchLoop, Call.isCallback]
  | cons evt rest ih =>
    rw [dispatchLoop_cons]
    have h1 := dispatchEvent_callbacks_le P st owner w eventMask evt reads
    have h2 := ih (dispatchEvent P st owner w eventMask evt reads).2
    simp [Call.isCallback] at h1 h2 ⊢
    omega

theorem pointer_ne_window_label (P : Platform) (hP : P.caseLabelsDistinct) (t : Int)
    (ht : t = P.KD_EVENT_WINDOW_FOCUS ∨ t = P.KD_EVENT_WINDOW_CLOSE ∨
      t = P.KD_EVENT_WINDOWPROPERTY_CHANGE ∨ t = P.KD_EVENT_WINDOW_REDRAW) :
    t ≠ P.KD_EVENT_INPUT_POINTER := by
  have h := hP.1
  simp only [List.nodup_cons, List.mem_cons, List.mem_singleton, not_or] at h
  obtain ⟨⟨h1, h2, h3, h4, _⟩, _⟩ := h
  rcases ht with ht | ht | ht | ht <;> rw [ht] <;> intro hc
  · exact h1 hc.symm
  · exact h2 hc.symm
  · exact h3 hc.symm
  · exact h4 hc.symm

theorem maskAllows_eq_false_iff (P : Platform) (hP : P.caseLabelsDistinct) (eventMask t : Int) :
    maskAllows P eventMask t = false ↔
      (t = P.KD_EVENT_INPUT_POINTER ∧ Int.land eventMask P.EVENT_MOUSE = 0) ∨
      ((t = P.KD_EVENT_WINDOW_FOCUS ∨ t = P.KD_EVENT_WINDOW_CLOSE ∨
          t = P.KD_EVENT_WINDOWPROPERTY_CHANGE ∨ t = P.KD_EVENT_WINDOW_REDRAW) ∧
        Int.land eventMask P.EVENT_WINDOW = 0) := by
  unfold maskAllows
  by_cases hp : t = P.KD_EVENT_INPUT_POINTER
  · have hw : ¬ (t = P.KD_EVENT_WINDOW_FOCUS ∨ t = P.KD_EVENT_WINDOW_CLOSE ∨
        t = P.KD_EVENT_WINDOWPROPERTY_CHANGE ∨ t = P.KD_EVENT_WINDOW_REDRAW) :=
      fun hw => pointer_ne_window_label P hP t hw hp
    rw [if_pos hp]
    by_cases hm : Int.land eventMask P.EVENT_MOUSE = 0
    · rw [if_pos hm]; exact ⟨fun _ => Or.inl ⟨hp, hm⟩, fun _ => rfl⟩
    · rw [if_neg hm]
      constructor
      · intro h; cases h
      · rintro (⟨_, h⟩ | ⟨h, _⟩)
        · exact absurd h hm
        · exact absurd h hw
  · rw [if_neg hp]
    by_cases hw : t = P.KD_EVENT_WINDOW_FOCUS ∨ t = P.KD_EVENT_WINDOW_CLOSE ∨
        t = P.KD_EVENT_WINDOWPROPERTY_CHANGE ∨ t = P.KD_EVENT_WINDOW_REDRAW
    · rw [if_pos hw]
      by_cases hm : Int.land eventMask P.EVENT_WINDOW = 0
      · rw [if_pos hm]; exact ⟨fun _ => Or.inr ⟨hw, hm⟩, fun _ => rfl⟩
      · rw [if_neg hm]
        constructor
        · intro h; cases h
        · rintro (⟨h, _⟩ | ⟨_, h⟩)
          · exact absurd h hp
          · exact absurd h hm
    · rw [if_neg hw]
      constructor
      · intro h; cases h
      · rintro (⟨h, _⟩ | ⟨h, _⟩)
        · exact absurd h hp
        · exact absurd h hw

theorem translateEvent_pointer (P : Platform) (hP : P.caseLabelsDistinct) (st : Statics)
    (w : Nat) (evt : KDEvent) (reads : Nat → SizeRead)
    (hType : evt.type = P.KD_EVENT_INPUT_POINTER) :
    translateEvent P st w evt reads =
      (if P.KD_INPUT_POINTER_SELECT = evt.inputpointer.index then
        ([Call.CallVoidMethod st.sendMouseEventID
            [if evt.inputpointer.select = 0 then P.EVENT_MOUSE_RELEASED
              else P.EVENT_MOUSE_PRESSED,
              0, evt.inputpointer.x, evt.inputpointer.y, 1, 0]], reads)
      else
        ([Call.CallVoidMethod st.sendMouseEventID
            [P.EVENT_MOUSE_MOVED, 0, evt.inputpointer.x, evt.inputpointer.y, 0, 0]], reads)) := by
  have h1 : evt.type ≠ P.KD_EVENT_WINDOW_FOCUS := fun h =>
    pointer_ne_window_label P hP _ (Or.inl h) hType
  have h2 : evt.type ≠ P.KD_EVENT_WINDOW_CLOSE := fun h =>
    pointer_ne_window_label P hP _ (Or.inr (Or.inl h)) hType
  have h3 : evt.type ≠ P.KD_EVENT_WINDOWPROPERTY_CHANGE := fun h =>
    pointer_ne_window_label P hP _ (Or.inr (Or.inr (Or.inl h))) hType
  unfold translateEvent
  rw [if_neg h1, if_neg h2, if_neg h3, if_pos hType]

/-! ## `initIDs` and `CreateWindow` -/

/-- The statics after `initIDs` are the identifiers the JNI answered, whatever they
were before. -/
theorem initIDs_statics (P : Platform) (st : Statics) (GetMethodID : String → String → Nat) :
    (Java_com_sun_javafx_newt_kd_KDWindow_initIDs P st GetMethodID).statics =
      { sizeChangedID := GetMethodID "sizeChanged" "(II)V"
        windowDestroyNotifyID := GetMethodID "windowDestroyNotify" "()V"
        windowDestroyedID := GetMethodID "windowDestroyed" "()V"
        sendMouseEventID := GetMethodID "sendMouseEvent" "(IIIIII)V"
        sendKeyEventID := GetMethodID "sendKeyEvent" "(IIIC)V" } := by
  unfold Java_com_sun_javafx_newt_kd_KDWindow_initIDs
  dsimp only
  split_ifs <;> rfl


/-- The two ways `CreateWindow` ends: an early `return 0` before any call into the
toolkit, or the path through `kdCreateWindow`. -/
theorem CreateWindow_cases (P : Platform) (st : Statics) (owner display : Int)
    (jAttrs : JIntArray) (created : Nat) :
    ((jlongToPtr P.build display = 0 ∨ jAttrs.length = 0 ∨ jAttrs.elements = none) ∧
        (Java_com_sun_javafx_newt_kd_KDWindow_CreateWindow
            P st owner display jAttrs created).calls.filter Call.isNative = [] ∧
        (Java_com_sun_javafx_newt_kd_KDWindow_CreateWindow
            P st owner display jAttrs created).value = 0 ∧
        (Java_com_sun_javafx_newt_kd_KDWindow_CreateWindow
            P st owner display jAttrs created).statics = st) ∨
      (∃ attrs, (jlongToPtr P.build display ≠ 0 ∧ jAttrs.length ≠ 0 ∧
          jAttrs.elements = some attrs) ∧
        Java_com_sun_javafx_newt_kd_KDWindow_CreateWindow P st owner display jAttrs created =
          { value := ptrToJlong P.build created
            calls :=
              [Call.GetArrayLength, Call.GetIntArrayElements,
                Call.kdCreateWindow (jlongToPtr P.build display) attrs
                  (ownerToUserptr P.build owner),
                Call.ReleaseIntArrayElements] ++
              (if created = 0 then [Call.kdGetError] else [])
            statics := st }) := by
  unfold Java_com_sun_javafx_newt_kd_KDWindow_CreateWindow
  dsimp only
  by_cases h1 : jlongToPtr P.build display = 0
  · rw [if_pos h1]
    exact Or.inl ⟨Or.inl h1, rfl, rfl, rfl⟩
  · rw [if_neg h1]
    by_cases h2 : 0 = jAttrs.length
    · rw [if_pos h2]
      exact Or.inl ⟨Or.inr (Or.inl h2.symm), rfl, rfl, rfl⟩
    · rw [if_neg h2]
      cases he : jAttrs.elements with
      | none => exact Or.inl ⟨Or.inr (Or.inr rfl), rfl, rfl, rfl⟩
      | some attrs => exact Or.inr ⟨attrs, ⟨h1, fun h => h2 h.symm, rfl⟩, rfl⟩

/-! ## The claims -/

/-- C1: with `n` events pending in the native queue and none arriving during the call,
`DispatchMessages` returns, for every owner, window handle and event mask, after exactly
`n + 1` calls of `kdWaitEvent`; the last call it makes is the `kdWaitEvent` that finds
the queue empty, and no event is left pending. -/
theorem DispatchMessages_terminates (P : Platform) (st : Statics) (owner window eventMask : Int)
    (q : List KDEvent) (reads : Nat → SizeRead) :
    ((Java_com_sun_javafx_newt_kd_KDWindow_DispatchMessages
        P st owner window eventMask ⟨q, reads⟩).calls.filter
        Call.isWaitEvent).length = q.length + 1 ∧
      (Java_com_sun_javafx_newt_kd_KDWindow_DispatchMessages
          P st owner window eventMask ⟨q, reads⟩).calls.getLast? =
        some (Call.kdWaitEvent 0) ∧
      (Java_com_sun_javafx_newt_kd_KDWindow_DispatchMessages
          P st owner window eventMask ⟨q, reads⟩).value.queue = [] :=
  ⟨dispatchLoop_wait_count P st owner _ eventMask q reads,
    dispatchLoop_getLast P st owner _ eventMask q reads,
    dispatchLoop_queue P st owner _ eventMask q reads⟩

/-- C2: `DispatchMessages` forwards only matching events. If handling an event makes an
upcall, then the event's owner (its `userptr` cast to `jint`) is the caller's owner, a
pointer event has the `EVENT_MOUSE` bit in `eventMask`, and a focus, close,
property-change or redraw event has the `EVENT_WINDOW` bit. An event that fails the
owner test or whose class is not enabled makes no call at all (no upcall, no property
read, no size reading used up): it only costs the `kdWaitEvent` that fetched it, and the
rest of the queue is handled as if the event had not been there. -/
theorem DispatchMessages_forwards_only_matching (P : Platform) (hP : P.caseLabelsDistinct)
    (st : Statics) (owner window eventMask : Int) (evt : KDEvent) (rest : List KDEvent)
    (reads : Nat → SizeRead) :
    ((∃ c ∈ (dispatchEvent P st owner (jlongToPtr P.build window) eventMask evt reads).1,
          c.isCallback = true) →
        userptrToOwner P.build evt.userptr = owner ∧
        (evt.type = P.KD_EVENT_INPUT_POINTER → Int.land eventMask P.EVENT_MOUSE ≠ 0) ∧
        (evt.type = P.KD_EVENT_WINDOW_FOCUS ∨ evt.type = P.KD_EVENT_WINDOW_CLOSE ∨
            evt.type = P.KD_EVENT_WINDOWPROPERTY_CHANGE ∨
            evt.type = P.KD_EVENT_WINDOW_REDRAW →
          Int.land eventMask P.EVENT_WINDOW ≠ 0)) ∧
    (userptrToOwner P.build evt.userptr ≠ owner ∨
        (evt.type = P.KD_EVENT_INPUT_POINTER ∧ Int.land eventMask P.EVENT_MOUSE = 0) ∨
        ((evt.type = P.KD_EVENT_WINDOW_FOCUS ∨ evt.type = P.KD_EVENT_WINDOW_CLOSE ∨
            evt.type = P.KD_EVENT_WINDOWPROPERTY_CHANGE ∨
            evt.type = P.KD_EVENT_WINDOW_REDRAW) ∧
          Int.land eventMask P.EVENT_WINDOW = 0) →
      dispatchEvent P st owner (jlongToPtr P.build window) eventMask evt reads =
          ([], reads) ∧
        (Java_com_sun_javafx_newt_kd_KDWindow_DispatchMessages
            P st owner window eventMask ⟨evt :: rest, reads⟩).calls =
          Call.kdWaitEvent 0 ::
            (Java_com_sun_javafx_newt_kd_KDWindow_DispatchMessages
                P st owner window eventMask ⟨rest, reads⟩).calls ∧
        (Java_com_sun_javafx_newt_kd_KDWindow_DispatchMessages
            P st owner window eventMask ⟨evt :: rest, reads⟩).value =
          (Java_com_sun_javafx_newt_kd_KDWindow_DispatchMessages
              P st owner window eventMask ⟨rest, reads⟩).value) := by
  have hskip : userptrToOwner P.build evt.userptr ≠ owner ∨
      maskAllows P eventMask evt.type = false →
      dispatchEvent P st owner (jlongToPtr P.build window) eventMask evt reads =
        ([], reads) := by
    rintro (h | h)
    · exact dispatchEvent_eq_nil_of_owner P st owner _ eventMask evt reads h
    · exact dispatchEvent_eq_nil_of_mask P st owner _ eventMask evt reads h
  constructor
  · rintro ⟨c, hc, _⟩
    by_cases ho : userptrToOwner P.build evt.userptr = owner
    · by_cases hm : maskAllows P eventMask evt.type = false
      · rw [hskip (Or.inr hm)] at hc; cases hc
      · have hm2 := mt (maskAllows_eq_false_iff P hP eventMask evt.type).mpr hm
        refine ⟨ho, fun ht h0 => hm2 (Or.inl ⟨ht, h0⟩), fun ht h0 => hm2 (Or.inr ⟨ht, h0⟩)⟩
    · rw [hskip (Or.inl ho)] at hc; cases hc
  · intro h
    have hnil : dispatchEvent P st owner (jlongToPtr P.build window) eventMask evt reads =
        ([], reads) := by
      rcases h with h | h | h
      · exact hskip (Or.inl h)
      · exact hskip (Or.inr ((maskAllows_eq_false_iff P hP eventMask evt.type).mpr (Or.inl h)))
      · exact hskip (Or.inr ((maskAllows_eq_false_iff P hP eventMask evt.type).mpr (Or.inr h)))
    refine ⟨hnil, ?_, ?_⟩
    · simp only [Java_com_sun_javafx_newt_kd_KDWindow_DispatchMessages]
      rw [dispatchLoop_cons, hnil]
      rfl
    · simp only [Java_com_sun_javafx_newt_kd_KDWindow_DispatchMessages]
      rw [dispatchLoop_cons, hnil]

/-- C2 at a concrete input: a pointer event of the caller's own window is dropped
without any call when `eventMask` holds only the `EVENT_WINDOW` bit. -/
theorem DispatchMessages_forwards_only_matching_witness :
    (examplePlatform .intptr64_ptr64).caseLabelsDistinct ∧
      dispatchEvent (examplePlatform .intptr64_ptr64) ⟨11, 12, 13, 14, 15⟩ 5
          (jlongToPtr .intptr64_ptr64 4096) 1 ⟨57, 5, ⟨0⟩, ⟨16387, 1, 10, 20⟩⟩ (fun _ => ⟨0, 640, 480⟩) =
        ([], fun _ => ⟨0, 640, 480⟩) :=
  ⟨by decide,
    ((DispatchMessages_forwards_only_matching (examplePlatform .intptr64_ptr64) (by decide)
      ⟨11, 12, 13, 14, 15⟩ 5 4096 1 ⟨57, 5, ⟨0⟩, ⟨16387, 1, 10, 20⟩⟩ []
      (fun _ => ⟨0, 640, 480⟩)).2 (Or.inr (Or.inl ⟨rfl, by decide⟩))).1⟩

/-- C4: a pointer event of the caller's owner, with the `EVENT_MOUSE` bit in `eventMask`,
makes exactly one call, the upcall `sendMouseEvent(type, 0, x, y, button, 0)` with the
event's `x` and `y`. When the event's `index` is `KD_INPUT_POINTER_SELECT`, `type` is
`EVENT_MOUSE_RELEASED` for `select = 0` and `EVENT_MOUSE_PRESSED` for every other
`select`, and `button` is 1; for every other `index`, `type` is `EVENT_MOUSE_MOVED` and
`button` is 0. -/
theorem DispatchMessages_pointer_event (P : Platform) (hP : P.caseLabelsDistinct)
    (st : Statics) (owner window eventMask : Int) (evt : KDEvent) (rest : List KDEvent)
    (reads : Nat → SizeRead)
    (hOwner : userptrToOwner P.build evt.userptr = owner)
    (hType : evt.type = P.KD_EVENT_INPUT_POINTER)
    (hMask : Int.land eventMask P.EVENT_MOUSE ≠ 0) :
    dispatchEvent P st owner (jlongToPtr P.build window) eventMask evt reads =
        ([Call.CallVoidMethod st.sendMouseEventID
            [if evt.inputpointer.index = P.KD_INPUT_POINTER_SELECT then
                (if evt.inputpointer.select = 0 then P.EVENT_MOUSE_RELEASED
                  else P.EVENT_MOUSE_PRESSED)
              else P.EVENT_MOUSE_MOVED,
              0, evt.inputpointer.x, evt.inputpointer.y,
              if evt.inputpointer.index = P.KD_INPUT_POINTER_SELECT then 1 else 0, 0]],
          reads) ∧
      (Java_com_sun_javafx_newt_kd_KDWindow_DispatchMessages
          P st owner window eventMask ⟨evt :: rest, reads⟩).calls =
        Call.kdWaitEvent 0 ::
          Call.CallVoidMethod st.sendMouseEventID
            [if evt.inputpointer.index = P.KD_INPUT_POINTER_SELECT then
                (if evt.inputpointer.select = 0 then P.EVENT_MOUSE_RELEASED
                  else P.EVENT_MOUSE_PRESSED)
              else P.EVENT_MOUSE_MOVED,
              0, evt.inputpointer.x, evt.inputpointer.y,
              if evt.inputpointer.index = P.KD_INPUT_POINTER_SELECT then 1 else 0, 0] ::
          (Java_com_sun_javafx_newt_kd_KDWindow_DispatchMessages
              P st owner window eventMask ⟨rest, reads⟩).calls := by
  have hm : maskAllows P eventMask evt.type = true := by
    cases hb : maskAllows P eventMask evt.type with
    | true => rfl
    | false =>
      rcases (maskAllows_eq_false_iff P hP eventMask evt.type).mp hb with ⟨_, h⟩ | ⟨h, _⟩
      · exact absurd h hMask
      · exact absurd hType (pointer_ne_window_label P hP _ h)
  have hstep : dispatchEvent P st owner (jlongToPtr P.build window) eventMask evt reads =
      ([Call.CallVoidMethod st.sendMouseEventID
          [if evt.inputpointer.index = P.KD_INPUT_POINTER_SELECT then
              (if evt.inputpointer.select = 0 then P.EVENT_MOUSE_RELEASED
                else P.EVENT_MOUSE_PRESSED)
            else P.EVENT_MOUSE_MOVED,
            0, evt.inputpointer.x, evt.inputpointer.y,
            if evt.inputpointer.index = P.KD_INPUT_POINTER_SELECT then 1 else 0, 0]],
        reads) := by
    rw [dispatchEvent_eq_translate P st owner _ eventMask evt reads hOwner hm,
      translateEvent_pointer P hP st _ evt reads hType]
    by_cases hi : evt.inputpointer.index = P.KD_INPUT_POINTER_SELECT
    · rw [if_pos hi.symm, if_pos hi, if_pos hi]
    · rw [if_neg (fun h => hi h.symm), if_neg hi, if_neg hi]
  refine ⟨hstep, ?_⟩
  simp only [Java_com_sun_javafx_newt_kd_KDWindow_DispatchMessages]
  rw [dispatchLoop_cons, hstep]
  rfl

/-- C4 at a concrete input: a select event with `select = 1` at (10, 20) is forwarded as
`sendMouseEvent(EVENT_MOUSE_PRESSED, 0, 10, 20, 1, 0)`. -/
theorem DispatchMessages_pointer_event_witness :
    (Java_com_sun_javafx_newt_kd_KDWindow_DispatchMessages
        (examplePlatform .intptr64_ptr64) ⟨11, 12, 13, 14, 15⟩ 5 4096 2
        ⟨[⟨57, 5, ⟨0⟩, ⟨16387, 1, 10, 20⟩⟩], fun _ => ⟨0, 640, 480⟩⟩).calls =
      [Call.kdWaitEvent 0, Call.CallVoidMethod 14 [203, 0, 10, 20, 1, 0],
        Call.kdWaitEvent 0] :=
  (DispatchMessages_pointer_event (examplePlatform .intptr64_ptr64) (by decide)
    ⟨11, 12, 13, 14, 15⟩ 5 4096 2 ⟨57, 5, ⟨0⟩, ⟨16387, 1, 10, 20⟩⟩ []
    (fun _ => ⟨0, 640, 480⟩) (by decide) rfl (by decide)).2

/-- C5: `DispatchMessages` neither buffers nor reorders. Handling one event makes at most
one upcall, so a queue of `n` events makes at most `n`; and the upcalls made for the
queue `q1 ++ q2` are the upcalls made for `q1` followed by the upcalls made for `q2`
(same owner, window and event mask, the toolkit answering the size reads of `q2` as it
does after those of `q1`). -/
theorem DispatchMessages_pass_through (P : Platform) (st : Statics)
    (owner window eventMask : Int) (q1 q2 : List KDEvent) (evt : KDEvent)
    (reads : Nat → SizeRead) :
    ((dispatchEvent P st owner (jlongToPtr P.build window) eventMask evt reads).1.filter
        Call.isCallback).length ≤ 1 ∧
      (Java_com_sun_javafx_newt_kd_KDWindow_DispatchMessages
          P st owner window eventMask ⟨q1, reads⟩).callbacks.length ≤
        q1.length ∧
      (Java_com_sun_javafx_newt_kd_KDWindow_DispatchMessages
          P st owner window eventMask ⟨q1 ++ q2, reads⟩).callbacks =
        (Java_com_sun_javafx_newt_kd_KDWindow_DispatchMessages
            P st owner window eventMask ⟨q1, reads⟩).callbacks ++
          (Java_com_sun_javafx_newt_kd_KDWindow_DispatchMessages P st owner window eventMask
            ⟨q2, (Java_com_sun_javafx_newt_kd_KDWindow_DispatchMessages P st owner window eventMask
              ⟨q1, reads⟩).value.sizeReads⟩).callbacks :=
  ⟨dispatchEvent_callbacks_le P st owner _ eventMask evt reads,
    dispatchLoop_callbacks_length P st owner _ eventMask q1 reads,
    dispatchLoop_callbacks_append P st owner _ eventMask q1 q2 reads⟩

/-- C6: for every `jint` owner and for pointers of 32 or of 64 bits (on each of the
three builds), the owner cast to a pointer as `CreateWindow` does and cast back as
`DispatchMessages` does is the owner again. The user pointer that `CreateWindow` hands to `kdCreateWindow` is that pointer, and
an event carrying it gets past the owner test of `DispatchMessages` called with owner
`o'` exactly when `o = o'`: for `o ≠ o'` the event is skipped, for `o = o'` it goes on to
the event-mask test and the translation. -/
theorem owner_roundtrip (P : Platform) (st : Statics) (o o' : Int) (ho : jintRange o)
    (display : Int) (jAttrs : JIntArray) (created : Nat) (evt : KDEvent)
    (hevt : evt.userptr = ownerToUserptr P.build o) (w : Nat) (eventMask : Int)
    (reads : Nat → SizeRead) :
    userptrToOwner P.build (ownerToUserptr P.build o) = o ∧
      (∀ c ∈ (Java_com_sun_javafx_newt_kd_KDWindow_CreateWindow
          P st o display jAttrs created).calls, ∀ dpy attrs userptr,
        c = Call.kdCreateWindow dpy attrs userptr → userptr = ownerToUserptr P.build o) ∧
      (userptrToOwner P.build evt.userptr = o' ↔ o = o') ∧
      (o ≠ o' → dispatchEvent P st o' w eventMask evt reads = ([], reads)) ∧
      (o = o' → dispatchEvent P st o' w eventMask evt reads =
        if maskAllows P eventMask evt.type = false then ([], reads)
        else translateEvent P st w evt reads) := by
  have hrt : userptrToOwner P.build (ownerToUserptr P.build o) = o :=
    userptrToOwner_ownerToUserptr P.build o ho
  have hsrc : userptrToOwner P.build evt.userptr = o := by rw [hevt]; exact hrt
  refine ⟨hrt, ?_, ?_, ?_, ?_⟩
  · intro c hc dpy attrs userptr hcall
    subst hcall
    rcases CreateWindow_cases P st o display jAttrs created with h | ⟨a, h⟩
    · have hmem : Call.kdCreateWindow dpy attrs userptr ∈
          (Java_com_sun_javafx_newt_kd_KDWindow_CreateWindow
              P st o display jAttrs created).calls.filter Call.isNative :=
        List.mem_filter.mpr ⟨hc, rfl⟩
      rw [h.2.1] at hmem
      cases hmem
    · rw [h.2] at hc
      dsimp only at hc
      by_cases hz : created = 0
      · rw [if_pos hz] at hc; simp at hc; exact hc.2.2
      · rw [if_neg hz] at hc; simp at hc; exact hc.2.2
  · rw [hsrc]
  · intro hne
    exact dispatchEvent_eq_nil_of_owner P st o' w eventMask evt reads (by rw [hsrc]; exact hne)
  · intro heq
    unfold dispatchEvent
    dsimp only
    rw [hsrc, if_neg (not_not.mpr heq)]

/-- C6 at a concrete input: owner `-7` on a 32-bit target. -/
theorem owner_roundtrip_witness :
    jintRange (-7) ∧ userptrToOwner .intptr32_ptr32 (ownerToUserptr .intptr32_ptr32 (-7)) = -7 :=
  ⟨by decide,
    (owner_roundtrip (examplePlatform .intptr32_ptr32) ⟨11, 12, 13, 14, 15⟩ (-7) (-7) (by decide)
      4096 ⟨1, some [0]⟩ 8192 ⟨44, 4294967289, ⟨0⟩, ⟨0, 0, 0, 0⟩⟩ (by decide) 4096 3
      (fun _ => ⟨0, 640, 480⟩)).1⟩

/-- C7: none of `CreateWindow`, `RealizeWindow`, `CloseWindow`, `setVisible0`,
`DispatchMessages`, `setFullScreen0` and `setSize0` changes any of the five cached method
identifiers, whatever the arguments and whatever the outside calls answer. -/
theorem statics_unchanged (P : Platform) (st : Statics) (owner display window : Int)
    (jAttrs : JIntArray) (created : Nat) (native : RealizeOutcome)
    (res visible fullscreen width height eventMask : Int) (kd : KDState) :
    (Java_com_sun_javafx_newt_kd_KDWindow_CreateWindow
        P st owner display jAttrs created).statics = st ∧
      (Java_com_sun_javafx_newt_kd_KDWindow_RealizeWindow P st window native).statics = st ∧
      (Java_com_sun_javafx_newt_kd_KDWindow_CloseWindow P st window res).statics = st ∧
      (Java_com_sun_javafx_newt_kd_KDWindow_setVisible0 P st window visible).statics = st ∧
      (Java_com_sun_javafx_newt_kd_KDWindow_DispatchMessages
          P st owner window eventMask kd).statics = st ∧
      (Java_com_sun_javafx_newt_kd_KDWindow_setFullScreen0
          P st window fullscreen res).statics = st ∧
      (Java_com_sun_javafx_newt_kd_KDWindow_setSize0
          P st window width height res).statics = st := by
  refine ⟨?_, ?_, rfl, rfl, rfl, rfl, rfl⟩
  · rcases CreateWindow_cases P st owner display jAttrs created with h | ⟨a, h⟩
    · exact h.2.2.2
    · rw [h.2]
  · unfold Java_com_sun_javafx_newt_kd_KDWindow_RealizeWindow
    dsimp only
    split_ifs <;> rfl

/-- C8: `setSize0` makes exactly one upcall, `sizeChanged(width, height)` with the width
and height it was called with, whatever `kdSetWindowPropertyiv` returns; it reads no
window property back. -/
theorem setSize0_notifies (P : Platform) (st : Statics) (window width height res : Int) :
    (Java_com_sun_javafx_newt_kd_KDWindow_setSize0 P st window width height res).callbacks =
        [Call.CallVoidMethod st.sizeChangedID [width, height]] ∧
      (Java_com_sun_javafx_newt_kd_KDWindow_setSize0
          P st window width height res).calls.filter Call.isPropertyRead = [] ∧
      (Java_com_sun_javafx_newt_kd_KDWindow_setSize0 P st window width height res).calls =
        [Call.kdSetWindowPropertyiv (jlongToPtr P.build window) P.KD_WINDOWPROPERTY_SIZE
            [width, height],
          Call.CallVoidMethod st.sizeChangedID [width, height]] :=
  ⟨rfl, rfl, rfl⟩

/-- The result of `RealizeWindow` on the builds whose `intptr_t` is as wide as a pointer:
the stored handle `h` as a `jlong`, from which `h` is recovered by the reverse cast, when
`kdRealizeWindow` returns 0; and 0 on every build when it returns a nonzero code. -/
theorem RealizeWindow_value_of_wide_intptr (P : Platform) (st : Statics) (window : Int)
    (h : Nat) (res : Int) (written : Option Nat)
    (hw : P.build.intptrBits = P.build.ptrBits) (hh : h < 2 ^ P.build.ptrBits)
    (hres : res ≠ 0) :
    (Java_com_sun_javafx_newt_kd_KDWindow_RealizeWindow P st window ⟨0, some h⟩).value =
        ptrToJlong P.build h ∧
      jlongToPtr P.build
          (Java_com_sun_javafx_newt_kd_KDWindow_RealizeWindow
            P st window ⟨0, some h⟩).value = h ∧
      (Java_com_sun_javafx_newt_kd_KDWindow_RealizeWindow
        P st window ⟨res, written⟩).value = 0 := by
  refine ⟨rfl, jlongToPtr_ptrToJlong P.build hw h hh, ?_⟩
  unfold Java_com_sun_javafx_newt_kd_KDWindow_RealizeWindow
  dsimp only
  rw [if_pos hres]
  exact ptrToJlong_zero P.build

/-- C9 at its failing input. On the build with `int` as `intptr_t` and 64-bit pointers,
when `kdRealizeWindow` returns 0 and stores the handle `0x7F0092345678`
(139640429631096), `RealizeWindow` returns -1842063752: the low 32 bits of the handle,
sign-extended. That is not the handle, and the reverse cast does not give it back. -/
theorem RealizeWindow_truncates_handle :
    (Java_com_sun_javafx_newt_kd_KDWindow_RealizeWindow (examplePlatform .intptr32_ptr64)
        ⟨11, 12, 13, 14, 15⟩ 4096 ⟨0, some 139640429631096⟩).value = -1842063752 ∧
      (Java_com_sun_javafx_newt_kd_KDWindow_RealizeWindow (examplePlatform .intptr32_ptr64)
        ⟨11, 12, 13, 14, 15⟩ 4096 ⟨0, some 139640429631096⟩).value ≠ 139640429631096 ∧
      jlongToPtr .intptr32_ptr64
        (Java_com_sun_javafx_newt_kd_KDWindow_RealizeWindow (examplePlatform .intptr32_ptr64)
          ⟨11, 12, 13, 14, 15⟩ 4096 ⟨0, some 139640429631096⟩).value ≠ 139640429631096 := by
  decide

/-- C10, as the code has it by design. On a build whose `intptr_t` is as wide as a
pointer, `CreateWindow` tests the `EGLDisplay` that `display` is cast to, which is `NULL`
exactly when the low pointer-width bits of `display` are 0: for a `jlong` on a 64-bit
build exactly when `display` is 0, on a 32-bit build also for other values. When that
pointer is `NULL`, when the attribute array has length 0, or when its elements cannot be
obtained, the result is 0 and no toolkit function is called. In every other case
`kdCreateWindow` is called exactly once, with the display, the array elements and the
caller's owner as user pointer, and the result is the handle that call returned, as a
`jlong` from which the reverse cast recovers it (0 when it returned `NULL`). -/
theorem CreateWindow_rejects_bad_arguments (P : Platform) (st : Statics)
    (owner display : Int) (jAttrs : JIntArray) (created : Nat)
    (hw : P.build.intptrBits = P.build.ptrBits) (hcreated : created < 2 ^ P.build.ptrBits) :
    (jlongToPtr P.build display = 0 ↔ display % 2 ^ P.build.ptrBits = 0) ∧
    (P.build.ptrBits = 64 → jlongRange display →
      (jlongToPtr P.build display = 0 ↔ display = 0)) ∧
    (display = 0 ∨ jlongToPtr P.build display = 0 ∨ jAttrs.length = 0 ∨
        jAttrs.elements = none →
      (Java_com_sun_javafx_newt_kd_KDWindow_CreateWindow
          P st owner display jAttrs created).value = 0 ∧
        (Java_com_sun_javafx_newt_kd_KDWindow_CreateWindow
          P st owner display jAttrs created).calls.filter Call.isNative = []) ∧
    (∀ attrs, jlongToPtr P.build display ≠ 0 → jAttrs.length ≠ 0 →
        jAttrs.elements = some attrs →
      (Java_com_sun_javafx_newt_kd_KDWindow_CreateWindow
          P st owner display jAttrs created).calls.filter Call.isCreateWindow =
          [Call.kdCreateWindow (jlongToPtr P.build display) attrs
            (ownerToUserptr P.build owner)] ∧
        (Java_com_sun_javafx_newt_kd_KDWindow_CreateWindow
          P st owner display jAttrs created).value = ptrToJlong P.build created ∧
        jlongToPtr P.build
          (Java_com_sun_javafx_newt_kd_KDWindow_CreateWindow
            P st owner display jAttrs created).value = created ∧
        (created = 0 →
          (Java_com_sun_javafx_newt_kd_KDWindow_CreateWindow
            P st owner display jAttrs created).value = 0)) := by
  have hz := jlongToPtr_eq_zero_iff P.build hw display
  refine ⟨hz, ?_, ?_, ?_⟩
  · intro h64 hr
    rw [hz, h64]
    exact jlong_emod_eq_zero_iff display hr
  · intro hbad
    have hbad2 : jlongToPtr P.build display = 0 ∨ jAttrs.length = 0 ∨
        jAttrs.elements = none := by
      rcases hbad with h | h | h | h
      · exact Or.inl (by rw [h]; exact jlongToPtr_zero P.build)
      · exact Or.inl h
      · exact Or.inr (Or.inl h)
      · exact Or.inr (Or.inr h)
    rcases CreateWindow_cases P st owner display jAttrs created with h | ⟨a, h⟩
    · exact ⟨h.2.2.1, h.2.1⟩
    · obtain ⟨⟨h1, h2, h3⟩, _⟩ := h
      rcases hbad2 with hb | hb | hb
      · exact absurd hb h1
      · exact absurd hb h2
      · rw [hb] at h3; cases h3
  · intro attrs h1 h2 h3
    rcases CreateWindow_cases P st owner display jAttrs created with h | ⟨a, h⟩
    · rcases h.1 with hb | hb | hb
      · exact absurd hb h1
      · exact absurd hb h2
      · rw [hb] at h3; cases h3
    · obtain ⟨⟨_, _, ha⟩, heq⟩ := h
      have haa : a = attrs := by rw [ha] at h3; exact Option.some.inj h3
      subst haa
      rw [heq]
      dsimp only
      refine ⟨?_, rfl, jlongToPtr_ptrToJlong P.build hw created hcreated, ?_⟩
      · by_cases hc0 : created = 0
        · rw [if_pos hc0]; rfl
        · rw [if_neg hc0]; rfl
      · intro hc0
        rw [hc0]
        exact ptrToJlong_zero P.build

/-- C10 at concrete inputs on a build with 64-bit `intptr_t`: a null display is rejected
without a call, and a valid call returns the handle `kdCreateWindow` returned. -/
theorem CreateWindow_rejects_bad_arguments_witness :
    (Java_com_sun_javafx_newt_kd_KDWindow_CreateWindow (examplePlatform .intptr64_ptr64)
        ⟨11, 12, 13, 14, 15⟩ 5 0 ⟨2, some [1, 0]⟩ 8192).value = 0 ∧
      (Java_com_sun_javafx_newt_kd_KDWindow_CreateWindow (examplePlatform .intptr64_ptr64)
        ⟨11, 12, 13, 14, 15⟩ 5 4096 ⟨2, some [1, 0]⟩ 8192).value = 8192 :=
  ⟨((CreateWindow_rejects_bad_arguments (examplePlatform .intptr64_ptr64)
      ⟨11, 12, 13, 14, 15⟩ 5 0 ⟨2, some [1, 0]⟩ 8192 rfl (by decide)).2.2.1
      (Or.inl rfl)).1,
    ((CreateWindow_rejects_bad_arguments (examplePlatform .intptr64_ptr64)
      ⟨11, 12, 13, 14, 15⟩ 5 4096 ⟨2, some [1, 0]⟩ 8192 rfl (by decide)).2.2.2
      [1, 0] (by decide) (by decide) rfl).2.1.trans (by decide)⟩

/-- C10 as stated fails: on the build with 32-bit `intptr_t` and pointers, the display
handle 4294967296 is not 0, the attribute array has length 2 and its elements are
obtained, yet `CreateWindow` returns 0 without calling `kdCreateWindow` (without any
call at all), because the display is cast to a `NULL` pointer. -/
theorem CreateWindow_rejects_nonzero_display :
    (4294967296 : Int) ≠ 0 ∧
      (Java_com_sun_javafx_newt_kd_KDWindow_CreateWindow (examplePlatform .intptr32_ptr32)
        ⟨11, 12, 13, 14, 15⟩ 5 4294967296 ⟨2, some [1, 0]⟩ 8192).value = 0 ∧
      (Java_com_sun_javafx_newt_kd_KDWindow_CreateWindow (examplePlatform .intptr32_ptr32)
        ⟨11, 12, 13, 14, 15⟩ 5 4294967296 ⟨2, some [1, 0]⟩ 8192).calls = [] := by
  decide

/-- C3, as the code has it: of the operations that receive an error code from the
toolkit, only `CloseWindow` hands it to its caller, returning whatever code
`kdDestroyWindow` returned. `RealizeWindow` returns 0, not the code, for every nonzero
code of `kdRealizeWindow`. `setFullScreen0` and `setSize0` return nothing, and what they
do is the same whatever code `kdSetWindowPropertybv` or `kdSetWindowPropertyiv`
returned. -/
theorem error_code_propagation (P : Platform) (st : Statics) (window res code : Int)
    (written : Option Nat) (fullscreen width height res' : Int) (hcode : code ≠ 0) :
    (Java_com_sun_javafx_newt_kd_KDWindow_CloseWindow P st window res).value = res ∧
      (Java_com_sun_javafx_newt_kd_KDWindow_RealizeWindow P st window ⟨code, written⟩).value = 0 ∧
      Java_com_sun_javafx_newt_kd_KDWindow_setFullScreen0
          P st window fullscreen res = Java_com_sun_javafx_newt_kd_KDWindow_setFullScreen0 P st window fullscreen res' ∧
      Java_com_sun_javafx_newt_kd_KDWindow_setSize0
          P st window width height res = Java_com_sun_javafx_newt_kd_KDWindow_setSize0 P st window width height res' := by
  refine ⟨rfl, ?_, rfl, rfl⟩
  unfold Java_com_sun_javafx_newt_kd_KDWindow_RealizeWindow
  dsimp only
  rw [if_pos hcode]
  exact ptrToJlong_zero P.build

/-- C3 at a concrete input: `CloseWindow` returns the code 7 of `kdDestroyWindow`. -/
theorem error_code_propagation_witness :
    (Java_com_sun_javafx_newt_kd_KDWindow_CloseWindow
        (examplePlatform .intptr64_ptr64) ⟨11, 12, 13, 14, 15⟩ 4096 7).value = 7 ∧
      (Java_com_sun_javafx_newt_kd_KDWindow_RealizeWindow
          (examplePlatform .intptr64_ptr64) ⟨11, 12, 13, 14, 15⟩ 4096
        ⟨7, none⟩).value = 0 :=
  ⟨(error_code_propagation (examplePlatform .intptr64_ptr64) ⟨11, 12, 13, 14, 15⟩ 4096 7 7 none
      1 640 480 0 (by decide)).1,
    (error_code_propagation (examplePlatform .intptr64_ptr64) ⟨11, 12, 13, 14, 15⟩ 4096 7 7 none
      1 640 480 0 (by decide)).2.1⟩

/-- C3 as stated fails: when `kdRealizeWindow` reports the code 7, `RealizeWindow` returns
0 to its caller, not 7. -/
theorem RealizeWindow_drops_error_code :
    (Java_com_sun_javafx_newt_kd_KDWindow_RealizeWindow
        (examplePlatform .intptr64_ptr64) ⟨11, 12, 13, 14, 15⟩ 4096
        ⟨7, some 8192⟩).value = 0 ∧
      (Java_com_sun_javafx_newt_kd_KDWindow_RealizeWindow
          (examplePlatform .intptr64_ptr64) ⟨11, 12, 13, 14, 15⟩ 4096
        ⟨7, some 8192⟩).value ≠ 7 := by
  decide

end KDWindow
